import Mathlib

/-
  Shallow embedding of mitmproxy/flow.py: the Flow lifecycle and
  interception-control core (Error, the Reply handshake primitive, and the
  Flow aggregate with its snapshot/backup/revert and intercept/resume/kill
  operations).

  Mutation is modelled by explicit state passing: every Python method that
  mutates `self` becomes a Lean function returning the updated value.
  Python exceptions are modelled by returning the post-state paired with an
  `Option String` carrying the exception message (`none` = normal return);
  the post-state reflects any mutation performed before the raise.
  Floats (timestamps) are modelled as `Rat`; opaque connection handles and
  opaque metadata values are modelled as `Nat`.
-/

namespace Mitmproxy

/-- Modelled from the spec: the state of the controller.Reply handshake
primitive (mitmproxy/controller.py is not under src/).  The spec gives the
closed state set { start, taken, committed }. -/
inductive ReplyState where
  | start
  | taken
  | committed
deriving DecidableEq, Repr

/-- Modelled from the spec: the Reply synchronization primitive itself
(mitmproxy/controller.py is not under src/).  Only its observable state is
relevant to the flow core. -/
structure Reply where
  state : ReplyState
deriving DecidableEq, Repr

/-- Modelled from the spec: "start → taken: invoked by interception logic via
take ... Idempotent: taking an already-taken reply is a no-op"; "the primitive
itself never fails; misuse ... degrades to a no-op". -/
def Reply.take (r : Reply) : Reply :=
  if r.state = ReplyState.start then { state := ReplyState.taken } else r

/-- Modelled from the spec: "taken → committed: invoked via commit ...
Calling commit when not in taken state is a no-op". -/
def Reply.commit (r : Reply) : Reply :=
  if r.state = ReplyState.taken then { state := ReplyState.committed } else r

/-- Modelled from the spec: controller.DummyReply, "a placeholder/inert
variant exists permanently in an already-committed-equivalent state, used for
duplicated or non-live flows so that taking/committing on them never blocks
anything and never signals a real I/O waiter". -/
def DummyReply : Reply := { state := ReplyState.committed }

/-- Opaque connection handle (connection.Client / connection.Server are out of
scope; the spec treats their snapshots as opaque nested values, so the snapshot
of a handle is the handle itself). -/
abbrev Conn := Nat

/-- Error entity from flow.py: `msg` and `timestamp`.  `msg` is `Option String`
because `Error.from_state` transiently constructs `cls(None)`.  The structural
snapshot of an Error is the pair of its two declared attributes, i.e. the
Error value itself, so the same structure serves as the Error and its state. -/
structure Error where
  msg : Option String
  timestamp : Rat
deriving DecidableEq, Repr

/-- `Error.KILLED_MESSAGE = "Connection killed."` -/
def Error.KILLED_MESSAGE : String := "Connection killed."

/-- `Error.__init__(msg, timestamp=None)`: `self.timestamp = timestamp or
time.time()`.  Python truthiness on an `Optional[float]`: `None` and `0.0` are
falsy, so both fall back to the current time `now`. -/
def Error.init (msg : Option String) (timestamp : Option Rat) (now : Rat) : Error :=
  { msg := msg,
    timestamp :=
      match timestamp with
      | none => now
      | some t => if t = 0 then now else t }

/-- `Error.get_state`: snapshot of the declared attributes (msg, timestamp). -/
def Error.get_state (e : Error) : Error := e

/-- `Error.set_state`: restore both declared attributes from the snapshot. -/
def Error.set_state (_e : Error) (s : Error) : Error := s

/-- `Error.from_state(state)`: `f = cls(None); f.set_state(state)`. -/
def Error.from_state (now : Rat) (s : Error) : Error :=
  (Error.init none none now).set_state s

/-- The declared `_stateobject_attributes` of Flow: id, error, client_conn,
server_conn, type, intercepted, is_replay, marked, metadata.  This is the
shape of `super().get_state()` for a Flow (generic StateObject snapshot,
modelled from the spec since mitmproxy/stateobject.py is not under src/). -/
structure FlowData where
  id : String
  error : Option Error
  client_conn : Option Conn
  server_conn : Option Conn
  type : Option String
  intercepted : Bool
  is_replay : Option String
  marked : Bool
  metadata : List (String × Nat)
deriving DecidableEq, Repr

/-- The full snapshot dict produced by `Flow.get_state`: the declared
attributes, the `version` tag, and optionally a nested `backup` snapshot.
`base d v` is a dict without a backup key; `withBackup d v b` has one. -/
inductive FlowState where
  | base (data : FlowData) (version : Nat)
  | withBackup (data : FlowData) (version : Nat) (backup : FlowState)
deriving DecidableEq, Repr

/-- The declared-attribute part of a snapshot. -/
def FlowState.data : FlowState → FlowData
  | .base d _ => d
  | .withBackup d _ _ => d

/-- The `version` entry of a snapshot. -/
def FlowState.version : FlowState → Nat
  | .base _ v => v
  | .withBackup _ v _ => v

/-- The optional `backup` entry of a snapshot (`none` = key absent). -/
def FlowState.backup : FlowState → Option FlowState
  | .base _ _ => none
  | .withBackup _ _ b => some b

/-- Build a snapshot from its parts (inverse of data/version/backup). -/
def FlowState.build (d : FlowData) (v : Nat) : Option FlowState → FlowState
  | none => .base d v
  | some b => .withBackup d v b

/-- Modelled from the spec: `version.FLOW_FORMAT_VERSION`, the snapshot format
version tag (mitmproxy/version.py is not under src/; its concrete value is
irrelevant to the flow core, which only writes it on get_state and strips it
on set_state). -/
def FLOW_FORMAT_VERSION : Nat := 0

/-- The Flow aggregate from flow.py.  Fields mirror the attributes set in
`Flow.__init__` (type, id, client_conn, server_conn, live, error, intercepted,
_backup, reply, marked, is_replay, metadata). -/
structure Flow where
  type : Option String
  id : String
  client_conn : Option Conn
  server_conn : Option Conn
  live : Option Bool
  error : Option Error
  intercepted : Bool
  _backup : Option FlowState
  reply : Option Reply
  marked : Bool
  is_replay : Option String
  metadata : List (String × Nat)
deriving DecidableEq, Repr

/-- `Flow.__init__(type, client_conn, server_conn, live=None)`.  The uuid4
identity is nondeterministic, so it is passed in as `freshId`. -/
def Flow.init (type : Option String) (client_conn : Option Conn)
    (server_conn : Option Conn) (live : Option Bool) (freshId : String) : Flow :=
  { type := type, id := freshId, client_conn := client_conn,
    server_conn := server_conn, live := live, error := none,
    intercepted := false, _backup := none, reply := none, marked := false,
    is_replay := none, metadata := [] }

/-- `super().get_state()` for a Flow: the snapshot of the nine declared
attributes (an Error's snapshot is the Error value; connection handles and
metadata are opaque). -/
def Flow.toFlowData (f : Flow) : FlowData :=
  { id := f.id, error := f.error.map Error.get_state,
    client_conn := f.client_conn, server_conn := f.server_conn,
    type := f.type, intercepted := f.intercepted, is_replay := f.is_replay,
    marked := f.marked, metadata := f.metadata }

/-- `Flow.get_state`: `d = super().get_state(); d.update(version=...);
if self._backup and self._backup != d: d.update(backup=self._backup)`. -/
def Flow.get_state (f : Flow) : FlowState :=
  let d : FlowState := FlowState.base f.toFlowData FLOW_FORMAT_VERSION
  match f._backup with
  | none => d
  | some b =>
    if b = d then d
    else FlowState.withBackup f.toFlowData FLOW_FORMAT_VERSION b

/-- `Flow.set_state`: copy the dict, pop `version`, pop `backup` into the
transient `_backup` slot when present (left unchanged when absent), then
`super().set_state` restores the nine declared attributes. -/
def Flow.set_state (f : Flow) (state : FlowState) : Flow :=
  let f' : Flow :=
    match state.backup with
    | some b => { f with _backup := some b }
    | none => f
  { f' with
    id := state.data.id,
    error := state.data.error,
    client_conn := state.data.client_conn,
    server_conn := state.data.server_conn,
    type := state.data.type,
    intercepted := state.data.intercepted,
    is_replay := state.data.is_replay,
    marked := state.data.marked,
    metadata := state.data.metadata }

/-- `Flow.from_state(state)`: construct a fresh empty instance of the concrete
type (concrete subclasses bind type and get `None` connections and default
`live=None`), then `set_state`. -/
def Flow.from_state (freshId : String) (state : FlowState) : Flow :=
  (Flow.init none none none none freshId).set_state state

/-- `Flow.copy`: `f = super().copy(); f.live = False; if self.reply is not
None: f.reply = controller.DummyReply()`.  The generic `StateObject.copy` is
modelled from the spec as a snapshot-visible deep duplicate, i.e.
reconstruction of a fresh instance from the current snapshot. -/
def Flow.copy (f : Flow) (freshId : String) : Flow :=
  let c := Flow.from_state freshId f.get_state
  let c := { c with live := some false }
  match f.reply with
  | some _ => { c with reply := some DummyReply }
  | none => c

/-- `Flow.modified`: true iff a backup is held and differs from the current
snapshot. -/
def Flow.modified (f : Flow) : Bool :=
  match f._backup with
  | some b => decide (b ≠ f.get_state)
  | none => false

/-- `Flow.backup(force=False)`: `if not self._backup: self._backup =
self.get_state()`.  Note that the body never reads `force`. -/
def Flow.backup (f : Flow) (force : Bool) : Flow :=
  match f._backup with
  | some _ => f
  | none => { f with _backup := some f.get_state }

/-- `Flow.revert`: `if self._backup: self.set_state(self._backup);
self._backup = None`. -/
def Flow.revert (f : Flow) : Flow :=
  match f._backup with
  | none => f
  | some b => { f.set_state b with _backup := none }

/-- `Flow.killable`: `self.reply and self.reply.state in {"start", "taken"}
and not (self.error and self.error.msg == Error.KILLED_MESSAGE)`. -/
def Flow.killable (f : Flow) : Bool :=
  match f.reply with
  | none => false
  | some r =>
    decide (r.state = ReplyState.start ∨ r.state = ReplyState.taken) &&
    !(match f.error with
      | none => false
      | some e => decide (e.msg = some Error.KILLED_MESSAGE))

/-- `Flow.kill`: raise ControlException("Flow is not killable.") when not
killable (before any mutation), otherwise set a fresh kill Error, clear
intercepted, clear live.  Result: post-state paired with the raised message. -/
def Flow.kill (f : Flow) (now : Rat) : Flow × Option String :=
  if f.killable then
    ({ f with
        error := some (Error.init (some Error.KILLED_MESSAGE) none now),
        intercepted := false,
        live := some false }, none)
  else
    (f, some "Flow is not killable.")

/-- `Flow.intercept`: `if self.intercepted: return; self.intercepted = True;
self.reply.take()`.  When `reply` is `None` Python raises AttributeError after
having already set `intercepted`. -/
def Flow.intercept (f : Flow) : Flow × Option String :=
  if f.intercepted then (f, none)
  else
    match f.reply with
    | none => ({ f with intercepted := true }, some "AttributeError")
    | some r => ({ f with intercepted := true, reply := some r.take }, none)

/-- `Flow.resume`: `if not self.intercepted: return; self.intercepted = False;
if self.reply.state == "taken": self.reply.commit()`. -/
def Flow.resume (f : Flow) : Flow × Option String :=
  if !f.intercepted then (f, none)
  else
    match f.reply with
    | none => ({ f with intercepted := false }, some "AttributeError")
    | some r =>
      ({ f with
          intercepted := false,
          reply := some (if r.state = ReplyState.taken then r.commit else r) },
       none)

/-- `Flow.timestamp_start`: delegates to the client connection's start time
(handles are opaque here, so the start time is fetched from an external map). -/
def Flow.timestamp_start (startTime : Conn → Rat) (f : Flow) : Option Rat :=
  f.client_conn.map startTime

/-- The body of `Flow.get_state` as a function of the declared-attribute
snapshot and the transient backup slot (convenient for round-trip proofs). -/
def getStateAux (d : FlowData) : Option FlowState → FlowState
  | none => FlowState.base d FLOW_FORMAT_VERSION
  | some b =>
    if b = FlowState.base d FLOW_FORMAT_VERSION then
      FlowState.base d FLOW_FORMAT_VERSION
    else FlowState.withBackup d FLOW_FORMAT_VERSION b

/-- A live flow with a real Reply in the initial `start` state, as the I/O
layer would set it up. -/
def sampleFlow : Flow :=
  { Flow.init (some "http") (some 0) (some 1) (some true) "flow-1" with
    reply := some { state := ReplyState.start } }

/-- A flow whose `intercepted` bit is set while its Reply is still in `start`
(constructible, e.g. by restoring a snapshot with `intercepted=True` onto a
flow whose Reply was never taken). -/
def interceptedStartFlow : Flow :=
  { sampleFlow with intercepted := true }

/-- `sampleFlow` after `intercept()` and a successful `kill()` at time 100. -/
def killedFlow : Flow :=
  (((sampleFlow.intercept).1).kill 100).1

/-- `sampleFlow` after a first `backup()`. -/
def backedFlow : Flow :=
  sampleFlow.backup false

/-- `backedFlow` after a user edit (`marked` flipped), so the current snapshot
differs from the held backup. -/
def mutatedFlow : Flow :=
  { backedFlow with marked := true }

/-- A flow with no Reply attached (e.g. never entered live processing). -/
def noReplyFlow : Flow :=
  Flow.init (some "tcp") (some 2) (some 3) none "flow-2"

/-- Snapshotting an optional Error is the identity (an Error's snapshot is its
own attribute record). -/
theorem errorSnapshot_id (o : Option Error) : o.map Error.get_state = o := by
  cases o <;> rfl

theorem FlowState.build_data (d : FlowData) (v : Nat) (bo : Option FlowState) :
    (FlowState.build d v bo).data = d := by
  cases bo <;> rfl

theorem FlowState.build_backup (d : FlowData) (v : Nat) (bo : Option FlowState) :
    (FlowState.build d v bo).backup = bo := by
  cases bo <;> rfl

/-- `set_state` restores the declared attributes: the restored flow's generic
snapshot data is exactly the data part of the state it was given. -/
theorem set_state_toFlowData (g : Flow) (s : FlowState) :
    (g.set_state s).toFlowData = s.data := by
  cases hsb : s.backup <;> cases hd : s.data <;>
    simp [Flow.set_state, Flow.toFlowData, hsb, hd, errorSnapshot_id]

/-- `set_state` pops a present `backup` key into the transient slot and leaves
the slot alone when the key is absent. -/
theorem set_state_backup (g : Flow) (s : FlowState) :
    (g.set_state s)._backup = match s.backup with
      | some b => some b
      | none => g._backup := by
  cases hsb : s.backup <;> simp [Flow.set_state, hsb]

/-- `set_state` never touches the `reply` slot. -/
theorem set_state_reply (g : Flow) (s : FlowState) :
    (g.set_state s).reply = g.reply := by
  cases hsb : s.backup <;> simp [Flow.set_state, hsb]

/-- `set_state` never touches the `live` flag. -/
theorem set_state_live (g : Flow) (s : FlowState) :
    (g.set_state s).live = g.live := by
  cases hsb : s.backup <;> simp [Flow.set_state, hsb]

/-- `set_state` reads only the declared data and the `backup` key of the given
state: the `version` entry is stripped without being consulted. -/
theorem set_state_congr (g : Flow) (s t : FlowState)
    (hd : s.data = t.data) (hb : s.backup = t.backup) :
    g.set_state s = g.set_state t := by
  cases hsb : s.backup <;> cases htb : t.backup <;>
    simp_all [Flow.set_state]

/-- `get_state` written through `getStateAux`. -/
theorem get_state_def (f : Flow) :
    f.get_state = getStateAux f.toFlowData f._backup := by
  cases hb : f._backup <;> simp [Flow.get_state, getStateAux, hb]

/-- The data part of a snapshot is always the flow's declared attributes. -/
theorem get_state_data (f : Flow) : (f.get_state).data = f.toFlowData := by
  rw [get_state_def]
  cases hb : f._backup with
  | none => rfl
  | some b =>
    simp only [getStateAux]
    split <;> rfl

/-- Renormalizing a produced snapshot is the identity: feeding the `backup`
entry of `getStateAux d bo` back in yields the same snapshot. -/
theorem getStateAux_idem (d : FlowData) (bo : Option FlowState) :
    getStateAux d (getStateAux d bo).backup = getStateAux d bo := by
  cases bo with
  | none => rfl
  | some b =>
    by_cases h : b = FlowState.base d FLOW_FORMAT_VERSION <;>
      simp [getStateAux, h, FlowState.backup]

theorem from_state_toFlowData (freshId : String) (s : FlowState) :
    (Flow.from_state freshId s).toFlowData = s.data :=
  set_state_toFlowData _ s

theorem from_state_backup (freshId : String) (s : FlowState) :
    (Flow.from_state freshId s)._backup = s.backup := by
  rw [Flow.from_state, set_state_backup]
  cases hsb : s.backup <;> rfl

theorem from_state_reply (freshId : String) (s : FlowState) :
    (Flow.from_state freshId s).reply = none :=
  set_state_reply _ s

/-- C10: constructing an Error with an explicit timestamp of 0 does not store
0: the truthiness fallback `timestamp or time.time()` replaces any falsy
timestamp argument (an explicit 0 as well as an omitted one) by the current
wall-clock time `now`, while every non-zero timestamp is stored verbatim. -/
theorem error_init_truthiness (msg : Option String) (now : Rat) :
    (Error.init msg (some 0) now).timestamp = now ∧
    (Error.init msg none now).timestamp = now ∧
    ∀ t : Rat, t ≠ 0 → (Error.init msg (some t) now).timestamp = t := by
  refine ⟨by simp [Error.init], rfl, ?_⟩
  intro t ht
  simp [Error.init, ht]

theorem error_init_truthiness_witness :
    (Error.init (some "oops") (some 0) 5).timestamp = 5 ∧
    (Error.init (some "oops") (some 3) 5).timestamp = 3 := by
  have h := error_init_truthiness (some "oops") 5
  exact ⟨h.1, h.2.2 3 (by norm_num)⟩

/-- C2: `killable` is false exactly when no Reply is attached, or the Reply's
state is `committed` (the only state besides `start` and `taken`), or the
flow's error already carries the kill sentinel message. -/
theorem killable_false_iff (f : Flow) :
    f.killable = false ↔
      f.reply = none ∨
      (∃ r, f.reply = some r ∧ r.state = ReplyState.committed) ∨
      (∃ e, f.error = some e ∧ e.msg = some Error.KILLED_MESSAGE) := by
  cases hr : f.reply with
  | none => simp [Flow.killable, hr]
  | some r =>
    cases he : f.error with
    | none =>
      obtain ⟨s⟩ := r
      cases s <;> simp [Flow.killable, hr, he]
    | some e =>
      obtain ⟨s⟩ := r
      cases s <;> by_cases hm : e.msg = some Error.KILLED_MESSAGE <;>
        simp [Flow.killable, hr, he, hm]

theorem killable_false_iff_witness :
    noReplyFlow.killable = false :=
  (killable_false_iff noReplyFlow).mpr (Or.inl rfl)

/-- C3: `kill()` on a non-killable flow raises
ControlException("Flow is not killable.") and, since the guard runs before any
assignment, returns with every field of the flow unchanged. -/
theorem kill_not_killable (f : Flow) (now : Rat) (h : f.killable = false) :
    f.kill now = (f, some "Flow is not killable.") := by
  simp [Flow.kill, h]

theorem kill_not_killable_witness :
    noReplyFlow.kill 7 = (noReplyFlow, some "Flow is not killable.") :=
  kill_not_killable noReplyFlow 7 rfl

/-- C4: `kill()` on a killable flow raises nothing, sets `error` to a new
Error carrying the kill sentinel (timestamped `now` by the truthiness
fallback), clears `intercepted`, sets `live` to False, and changes nothing
else: reply, id, type, backup slot, metadata, marked, is_replay and both
connection handles are untouched. -/
theorem kill_killable_effect (f : Flow) (now : Rat) (h : f.killable = true) :
    f.kill now =
      ({ f with
          error := some { msg := some Error.KILLED_MESSAGE, timestamp := now },
          intercepted := false,
          live := some false }, none) ∧
    (f.kill now).1.reply = f.reply ∧
    (f.kill now).1.id = f.id ∧
    (f.kill now).1.type = f.type ∧
    (f.kill now).1._backup = f._backup ∧
    (f.kill now).1.metadata = f.metadata ∧
    (f.kill now).1.marked = f.marked ∧
    (f.kill now).1.is_replay = f.is_replay ∧
    (f.kill now).1.client_conn = f.client_conn ∧
    (f.kill now).1.server_conn = f.server_conn := by
  refine ⟨?_, ?_, ?_, ?_, ?_, ?_, ?_, ?_, ?_, ?_⟩ <;>
    simp [Flow.kill, h, Error.init]

theorem kill_killable_effect_witness :
    sampleFlow.killable = true ∧
    (sampleFlow.kill 9).1.error =
      some { msg := some Error.KILLED_MESSAGE, timestamp := 9 } ∧
    (sampleFlow.kill 9).1.reply = sampleFlow.reply := by
  have h := kill_killable_effect sampleFlow 9 (by decide)
  refine ⟨by decide, ?_, h.2.1⟩
  rw [h.1]

/-- C5 counterexample: `interceptedStartFlow` carries a real Reply in state
`start`, yet `intercept()` (a no-op, the flag is already set) followed by
`resume()` leaves the Reply in `start`, not `committed`: `resume` clears the
flag but only commits a Reply that is currently `taken`. -/
theorem intercept_resume_start_cex :
    interceptedStartFlow.reply = some { state := ReplyState.start } ∧
    ((interceptedStartFlow.intercept).1.resume).1.intercepted = false ∧
    ((interceptedStartFlow.intercept).1.resume).1.reply =
      some { state := ReplyState.start } ∧
    ¬ ((interceptedStartFlow.intercept).1.resume).1.reply =
        some { state := ReplyState.committed } := by
  decide

/-- C5 amended: for every flow with a real Reply in state `start` that is not
already marked intercepted, `intercept()` followed immediately by `resume()`
leaves `intercepted = false` and the Reply in `committed`, and neither call
raises. -/
theorem intercept_resume_commits (f : Flow)
    (h1 : f.reply = some { state := ReplyState.start })
    (h2 : f.intercepted = false) :
    ((f.intercept).1.resume).1.intercepted = false ∧
    ((f.intercept).1.resume).1.reply = some { state := ReplyState.committed } ∧
    (f.intercept).2 = none ∧ ((f.intercept).1.resume).2 = none := by
  simp [Flow.intercept, h1, h2, Reply.take, Flow.resume, Reply.commit]

theorem intercept_resume_commits_witness :
    ((sampleFlow.intercept).1.resume).1.intercepted = false ∧
    ((sampleFlow.intercept).1.resume).1.reply =
      some { state := ReplyState.committed } := by
  have h := intercept_resume_commits sampleFlow rfl rfl
  exact ⟨h.1, h.2.1⟩

/-- C6 counterexample: after `sampleFlow` is intercepted and then killed,
calling `intercept()` again is not a no-op: `kill()` cleared `intercepted`, so
the second `intercept()` sets it back to true and the resulting flow differs
from the killed one (the claim's second half — `kill()` failing — does hold,
see the amended theorem). -/
theorem intercept_after_kill_cex :
    killedFlow.intercepted = false ∧
    killedFlow.error =
      some { msg := some Error.KILLED_MESSAGE, timestamp := 100 } ∧
    (killedFlow.intercept).1.intercepted = true ∧
    ¬ (killedFlow.intercept).1 = killedFlow := by
  decide

/-- C6 amended: for a flow in the post-kill shape (intercepted cleared, Reply
still `taken`, error carrying the kill sentinel), `intercept()` succeeds and
re-sets `intercepted` to true — changing nothing else: the error and the
already-taken Reply are unchanged — and `kill()`, whether called before or
after that re-intercept, fails with the control violation because `killable`
is false. -/
theorem intercept_after_kill (f : Flow) (now : Rat)
    (h1 : f.intercepted = false)
    (h2 : f.reply = some { state := ReplyState.taken })
    (h3 : ∃ e, f.error = some e ∧ e.msg = some Error.KILLED_MESSAGE) :
    (f.intercept).1 = { f with intercepted := true } ∧
    (f.intercept).2 = none ∧
    (f.intercept).1.error = f.error ∧
    (f.intercept).1.reply = f.reply ∧
    ((f.intercept).1).killable = false ∧
    ((f.intercept).1).kill now = ((f.intercept).1, some "Flow is not killable.") ∧
    f.kill now = (f, some "Flow is not killable.") := by
  obtain ⟨e, he, hm⟩ := h3
  have hnk : f.killable = false := by
    simp [Flow.killable, h2, he, hm]
  have hi : (f.intercept).1 = { f with intercepted := true } := by
    simp [Flow.intercept, h1, h2, Reply.take]
  have hik : ((f.intercept).1).killable = false := by
    rw [hi]
    simp [Flow.killable, h2, he, hm]
  refine ⟨hi, ?_, ?_, ?_, hik, ?_, ?_⟩
  · simp [Flow.intercept, h1, h2]
  · rw [hi]
  · rw [hi, h2]
  · simp [Flow.kill, hik]
  · simp [Flow.kill, hnk]

theorem intercept_after_kill_witness :
    (killedFlow.intercept).1 = { killedFlow with intercepted := true } ∧
    ((killedFlow.intercept).1).kill 200 =
      ((killedFlow.intercept).1, some "Flow is not killable.") ∧
    killedFlow.kill 200 = (killedFlow, some "Flow is not killable.") := by
  have h := intercept_after_kill killedFlow 200 (by decide) (by decide)
    ⟨{ msg := some Error.KILLED_MESSAGE, timestamp := 100 }, by decide, rfl⟩
  exact ⟨h.1, h.2.2.2.2.2.1, h.2.2.2.2.2.2⟩

/-- C7 (bug evidence): `backup(force=True)` does not recapture the current
snapshot when a backup is already held, because the body of `Flow.backup`
never reads `force`. At the failing input — `mutatedFlow`, which holds the
first captured snapshot and whose current state now differs from it — a
forced backup still leaves the first snapshot in the slot, and in general the
result of `backup` is independent of the `force` argument. -/
theorem backup_force_ignored_bug :
    mutatedFlow._backup = some sampleFlow.get_state ∧
    mutatedFlow.get_state ≠ sampleFlow.get_state ∧
    (mutatedFlow.backup true)._backup = some sampleFlow.get_state ∧
    (mutatedFlow.backup true)._backup ≠ some mutatedFlow.get_state ∧
    ∀ (f : Flow) (b1 b2 : Bool), f.backup b1 = f.backup b2 := by
  refine ⟨by decide, by decide, by decide, by decide, ?_⟩
  intro f b1 b2
  rfl

/-- C8 counterexample: `sampleFlow` has a real Reply attached, yet the flow
materialized from its snapshot via `from_state` has `reply = None` — the
fresh instance starts with no Reply and `set_state` never assigns one — so a
materialized flow's `reply` attribute is not an inert placeholder (and in
particular is `None`). -/
theorem from_state_reply_none_cex :
    sampleFlow.reply = some { state := ReplyState.start } ∧
    (Flow.from_state "fresh-1" sampleFlow.get_state).reply = none := by
  decide

/-- C8 amended: a flow materialized from a stored snapshot has `reply = None`
(the restore path never attaches any Reply), while `copy()` attaches the
inert, already-committed DummyReply exactly when the original has a Reply
attached — otherwise the copy's `reply` is `None` as well.  The placeholder is
terminal and non-blocking: take and commit on it are no-ops. -/
theorem materialized_and_copied_reply (f : Flow) (freshId : String)
    (s : FlowState) :
    (Flow.from_state freshId s).reply = none ∧
    ((f.copy freshId).reply = if f.reply.isSome then some DummyReply else none) ∧
    (f.copy freshId).live = some false ∧
    DummyReply.state = ReplyState.committed ∧
    DummyReply.take = DummyReply ∧
    DummyReply.commit = DummyReply := by
  refine ⟨from_state_reply freshId s, ?_, ?_, rfl, by decide, by decide⟩
  · cases hr : f.reply <;> simp [Flow.copy, hr, from_state_reply]
  · cases hr : f.reply <;> simp [Flow.copy, hr]

theorem materialized_and_copied_reply_witness :
    (sampleFlow.copy "copy-1").reply = some DummyReply ∧
    (noReplyFlow.copy "copy-2").reply = none := by
  have h1 := materialized_and_copied_reply sampleFlow "copy-1" sampleFlow.get_state
  have h2 := materialized_and_copied_reply noReplyFlow "copy-2" noReplyFlow.get_state
  constructor
  · rw [h1.2.1]; decide
  · rw [h2.2.1]; decide

/-- C9: a backup slot populated by `backup()` holds a snapshot with no
`backup` key: at capture time the slot was empty, so `get_state` omitted the
key.  Consequently any snapshot produced by `get_state` on a flow holding
such a backup nests prior state at most one level deep. -/
theorem backup_capture_no_nesting (f : Flow) (force : Bool)
    (h : f._backup = none) :
    (f.backup force)._backup = some f.get_state ∧
    (f.get_state).backup = none ∧
    ∀ g : Flow, g._backup = (f.backup force)._backup →
      (g.get_state).backup = none ∨ (g.get_state).backup = some f.get_state := by
  have hb : (f.backup force)._backup = some f.get_state := by
    simp [Flow.backup, h]
  have hgs : (f.get_state).backup = none := by
    rw [get_state_def, h]
    rfl
  refine ⟨hb, hgs, ?_⟩
  intro g hg
  rw [hb] at hg
  rw [get_state_def, hg]
  simp only [getStateAux]
  split <;> simp [FlowState.backup]

theorem backup_capture_no_nesting_witness :
    (sampleFlow.backup true)._backup = some sampleFlow.get_state ∧
    ((mutatedFlow.get_state).backup = none ∨
      (mutatedFlow.get_state).backup = some sampleFlow.get_state) := by
  have h := backup_capture_no_nesting sampleFlow true rfl
  exact ⟨h.1, h.2.2 mutatedFlow (by decide)⟩

/-- C1: round trip.  `set_state(get_state(f))` on a fresh empty instance of
the concrete type (as `from_state` does) restores every declared attribute,
yields a flow whose own snapshot is structurally equal to the original's,
restores the transient backup slot whenever the snapshot contained a `backup`
key, and strips the `version` tag without consulting it (the restored flow is
the same whatever version value the snapshot carries). -/
theorem flow_state_round_trip (f : Flow) (freshId : String) :
    (Flow.from_state freshId f.get_state).toFlowData = f.toFlowData ∧
    (Flow.from_state freshId f.get_state).get_state = f.get_state ∧
    (∀ b, (f.get_state).backup = some b →
      (Flow.from_state freshId f.get_state)._backup = some b) ∧
    ∀ v : Nat,
      Flow.from_state freshId
          (FlowState.build (f.get_state).data v (f.get_state).backup) =
        Flow.from_state freshId f.get_state := by
  have hdata : (Flow.from_state freshId f.get_state).toFlowData = f.toFlowData := by
    rw [from_state_toFlowData, get_state_data]
  have hback : (Flow.from_state freshId f.get_state)._backup = (f.get_state).backup :=
    from_state_backup freshId f.get_state
  refine ⟨hdata, ?_, ?_, ?_⟩
  · rw [get_state_def (Flow.from_state freshId f.get_state), hdata, hback,
      get_state_def f, getStateAux_idem]
  · intro b hbk
    rw [hback, hbk]
  · intro v
    simp only [Flow.from_state]
    exact set_state_congr _ _ _ (FlowState.build_data _ _ _)
      (FlowState.build_backup _ _ _)

theorem flow_state_round_trip_witness :
    (Flow.from_state "fresh-2" mutatedFlow.get_state).get_state =
      mutatedFlow.get_state ∧
    (Flow.from_state "fresh-2" mutatedFlow.get_state)._backup =
      some sampleFlow.get_state := by
  have h := flow_state_round_trip mutatedFlow "fresh-2"
  exact ⟨h.2.1, h.2.2.1 sampleFlow.get_state (by decide)⟩

end Mitmproxy
